import Mathlib

/-!
Shallow embedding of the authorization/session model and real-time
synchronization logic of the cloud-admin restaurant back-office app.

Sources embedded here:
- src/src/components/AdminRouteGuard.tsx (AdminRouteGuard, useAdminPermissions,
  AuthProvider with getInitialSession / onAuthStateChange / fetchUserProfile)
- src/src/components/admin/Dashboard.tsx (fetchDashboardData, debounce handler, channelRef)
- src/src/components/admin/MenuManagement.tsx (postgres_changes handlers)
- src/src/pages/Admin/AdminPanel.tsx (OrderManagement.updateOrderStatus)
- src/components/admin/admin-login.tsx (handleSignUp, OrderManagement: fetchOrders,
  updateOrderStatus, subscription effect)
- src/components/admin/menu-management.tsx (fetchMenuItems)
- src/components/admin/user-management.tsx (toggleUserRole)
- the SQL schema (profiles / menu_items / orders tables)
-/

namespace CloudAdmin

/-! ## Roles and the access guard (src/src variant)

`UserProfile.role` is `'customer' | 'admin' | 'superadmin'`
(src/src/lib/supabase.ts); the guard's required role parameter is
`'admin' | 'superadmin'` (AdminRouteGuard.tsx). -/

inductive Role where
  | customer
  | admin
  | superadmin
deriving DecidableEq, Repr

inductive ReqRole where
  | admin
  | superadmin
deriving DecidableEq, Repr

structure UserProfile where
  id : String
  email : String
  full_name : String
  phone : String
  role : Role
deriving DecidableEq, Repr

/-- Function `hasPermission` from `useAdminPermissions` (AdminRouteGuard.tsx lines 60-68):
null profile is denied; requiredRole 'superadmin' demands role 'superadmin';
requiredRole 'admin' accepts role 'admin' or 'superadmin'. -/
def hasPermission (userProfile : Option UserProfile) (requiredRole : ReqRole) : Bool :=
  match userProfile with
  | none => false
  | some p =>
    match requiredRole with
    | ReqRole.superadmin => decide (p.role = Role.superadmin)
    | ReqRole.admin => decide (p.role = Role.admin) || decide (p.role = Role.superadmin)

/-- Numeric rank of the role ordering customer < admin < superadmin. -/
def roleRank : Role → Nat
  | Role.customer => 0
  | Role.admin => 1
  | Role.superadmin => 2

/-- Rank of a required role inside the same ordering. -/
def reqRank : ReqRole → Nat
  | ReqRole.admin => 1
  | ReqRole.superadmin => 2

/-! ## Sign-up and role toggle (profiles variant)

In the profiles variant (src/lib/supabase.ts) `Profile.role` is the text
`'admin' | 'user'` (schema: `role text DEFAULT 'user' CHECK (role IN ('admin','user'))`). -/

structure ProfileRow where
  id : String
  email : String
  full_name : String
  role : String
deriving DecidableEq, Repr

/-- The row `handleSignUp` inserts into `profiles`
(admin-login.tsx lines 84-91): the role is the literal `'user'`,
independent of the visitor-supplied email / password / full name. -/
def signUpProfileRow (userId email fullName : String) : ProfileRow :=
  { id := userId, email := email, full_name := fullName, role := "user" }

/-- The new-role computation of `toggleUserRole` (user-management.tsx line 46):
`currentRole === 'admin' ? 'user' : 'admin'`. -/
def toggleRole (currentRole : String) : String :=
  if currentRole = "admin" then "user" else "admin"

/-! ## Session resolver (AuthProvider, AdminRouteGuard.tsx)

State carried by the provider: `user` (the identity-store session user),
`userProfile` (the resolved application-level profile) and `loading`. -/

structure AuthState where
  user : Option String
  userProfile : Option UserProfile
  loading : Bool
deriving DecidableEq, Repr

/-- The provider's initial React state: no user, no profile, loading. -/
def initialAuthState : AuthState :=
  { user := none, userProfile := none, loading := true }

/-- Outcome of the profiles query `supabase.from('users').select('*').eq('id', userId).single()`:
`.single()` reports an error both on a fetch failure and when no row matches,
so both collapse into `failure`. -/
inductive FetchResult where
  | failure
  | success (p : UserProfile)
deriving DecidableEq, Repr

/-- Function `fetchUserProfile` (AdminRouteGuard.tsx lines 146-163): on a query error it
logs and returns, leaving `userProfile` untouched; on success it stores the row. -/
def fetchUserProfile (res : FetchResult) (s : AuthState) : AuthState :=
  match res with
  | FetchResult.failure => s
  | FetchResult.success p => { s with userProfile := some p }

/-- Function `getInitialSession` (AdminRouteGuard.tsx lines 115-124): set `user` from the
session, fetch the profile when a session user exists, then clear `loading`. -/
def getInitialSession (session : Option String) (res : FetchResult) (s : AuthState) : AuthState :=
  let s1 := { s with user := session }
  let s2 := match session with
    | some _ => fetchUserProfile res s1
    | none => s1
  { s2 with loading := false }

/-- The `onAuthStateChange` listener body (AdminRouteGuard.tsx lines 129-141):
set `user` from the event's session; with a session user, re-run the profile
fetch; without one, set `userProfile` to null; then clear `loading`. -/
def onAuthStateChange (session : Option String) (res : FetchResult) (s : AuthState) : AuthState :=
  let s1 := { s with user := session }
  let s2 := match session with
    | some _ => fetchUserProfile res s1
    | none => { s1 with userProfile := none }
  { s2 with loading := false }

/-- A concrete admin profile used as the pre-existing resolved state in
counterexample traces. -/
def demoProfile : UserProfile :=
  { id := "u1", email := "a@b.c", full_name := "A", phone := "1", role := Role.admin }

/-! ## Live menu-items event handlers (src/src/components/admin/MenuManagement.tsx) -/

structure MenuItem where
  id : String
  name : String
  description : String
  price : Int
  category : String
  image_url : String
  available : Bool
deriving DecidableEq, Repr

/-- INSERT handler (MenuManagement.tsx line 81):
`setMenuItems(prev => [payload.new, ...prev])` — an unconditional prepend,
with no check whether a row with the same id is already present. -/
def applyMenuInsert (row : MenuItem) (prev : List MenuItem) : List MenuItem :=
  row :: prev

/-- UPDATE handler (MenuManagement.tsx lines 90-92):
`prev.map(item => item.id === payload.new.id ? payload.new : item)`. -/
def applyMenuUpdate (row : MenuItem) (prev : List MenuItem) : List MenuItem :=
  prev.map (fun item => if item.id = row.id then row else item)

/-- DELETE handler (MenuManagement.tsx line 101):
`prev.filter(item => item.id !== payload.old.id)`. -/
def applyMenuDelete (oldId : String) (prev : List MenuItem) : List MenuItem :=
  prev.filter (fun item => item.id ≠ oldId)

/-- Two concrete menu rows sharing one id, for the duplicate-insert
counterexample. -/
def itemA : MenuItem :=
  { id := "1", name := "a", description := "", price := 5, category := "main",
    image_url := "", available := true }

def itemB : MenuItem :=
  { id := "1", name := "b", description := "", price := 7, category := "main",
    image_url := "", available := true }

/-! ## Admin order-status update (both variants)

The profiles variant (src/components/admin/admin-login.tsx lines 277-299)
issues `update({ status: newStatus })`; its orders schema has no read flag at
all, so carrying `is_read` unchanged is a conservative embedding of "every
column other than status is untouched". The users variant
(src/src/pages/Admin OrderManagement lines 251-272) issues
`update({ status, is_read: true })`. -/

structure OrderRec where
  id : String
  status : String
  is_read : Bool
deriving DecidableEq, Repr

/-- Function `updateOrderStatus` of the profiles variant applied to the matching row:
only the status column changes. -/
def updateOrderStatusApp (newStatus : String) (o : OrderRec) : OrderRec :=
  { o with status := newStatus }

/-- Function `updateOrderStatus` of the users variant applied to the matching row:
status changes and `is_read` is set to true. -/
def updateOrderStatusPanel (newStatus : String) (o : OrderRec) : OrderRec :=
  { o with status := newStatus, is_read := true }

/-! ## Change-subscription channel lifecycle (C3)

The guarded pattern (Dashboard.tsx lines 151-200, src/src MenuManagement and
src/src OrderManagement): a `channelRef` ref is checked before creating a
channel in the mount effect, and cleared by the effect cleanup after
unsubscribing. The unguarded pattern (admin-login.tsx OrderManagement lines
242-254): the mount effect creates and subscribes a channel unconditionally
(no instance-scoped flag), and the cleanup unsubscribes it. `active` counts
the channels the instance has created and not yet unsubscribed. -/

structure ChannelState where
  channelRef : Bool
  active : Nat
deriving DecidableEq, Repr

def initialChannelState : ChannelState :=
  { channelRef := false, active := 0 }

/-- Guarded mount effect: `if (!channelRef.current) { channelRef.current = supabase.channel(...).subscribe(...) }`. -/
def guardedMountEffect (s : ChannelState) : ChannelState :=
  if s.channelRef then s else { channelRef := true, active := s.active + 1 }

/-- Guarded effect cleanup: `if (channelRef.current) { channelRef.current.unsubscribe(); channelRef.current = null }`. -/
def guardedCleanup (s : ChannelState) : ChannelState :=
  if s.channelRef then { channelRef := false, active := s.active - 1 } else s

/-- Unguarded mount effect (admin-login OrderManagement): the channel is
created and subscribed unconditionally on every effect run. -/
def ordersMountEffect (active : Nat) : Nat :=
  active + 1

/-- Unguarded effect cleanup: `subscription.unsubscribe()`. -/
def ordersCleanup (active : Nat) : Nat :=
  active - 1

/-- React lifecycle events of one screen instance. -/
inductive LifeEvent where
  | mount
  | unmount
deriving DecidableEq, Repr

/-- React pairs a mount effect with its cleanup: an effect can only run while
unmounted and a cleanup only while mounted; the runtime never delivers a
double mount or a double unmount, modelled by ignoring the out-of-phase event. -/
def guardedStep : ChannelState × Bool → LifeEvent → ChannelState × Bool
  | (s, false), LifeEvent.mount => (guardedMountEffect s, true)
  | (s, true), LifeEvent.unmount => (guardedCleanup s, false)
  | sp, _ => sp

def ordersStep : Nat × Bool → LifeEvent → Nat × Bool
  | (a, false), LifeEvent.mount => (ordersMountEffect a, true)
  | (a, true), LifeEvent.unmount => (ordersCleanup a, false)
  | ap, _ => ap

def guardedRun (evs : List LifeEvent) : ChannelState × Bool :=
  evs.foldl guardedStep (initialChannelState, false)

def ordersRun (evs : List LifeEvent) : Nat × Bool :=
  evs.foldl ordersStep (0, false)

/-! ## Debounced, serialized dashboard refresh (C6)

State of Dashboard.tsx's refresh machinery: `inFlight` counts executions of
`fetchDashboardData` currently past its guard, `liveTimers` holds the pending
`setTimeout` entries (id, delay in ms), `timerRef` mirrors
`debounceTimerRef.current`, `nextId` feeds fresh timer ids, `mounted` mirrors
`mountedRef.current`. -/

structure TimerEntry where
  id : Nat
  delay : Nat
deriving DecidableEq, Repr

structure DashState where
  inFlight : Nat
  liveTimers : List TimerEntry
  timerRef : Option Nat
  nextId : Nat
  mounted : Bool
deriving DecidableEq, Repr

def initialDashState : DashState :=
  { inFlight := 0, liveTimers := [], timerRef := none, nextId := 0, mounted := true }

/-- Call `clearTimeout(debounceTimerRef.current)`: cancels the timer the ref points
to, if it is still live. -/
def clearTimer (tid : Option Nat) (ts : List TimerEntry) : List TimerEntry :=
  match tid with
  | none => ts
  | some i => ts.filter (fun t => t.id ≠ i)

/-- The guard at the top of `fetchDashboardData` (Dashboard.tsx lines 41-45):
`if (isFetchingRef.current || !mountedRef.current) return; isFetchingRef.current = true`. -/
def fetchStart (s : DashState) : DashState :=
  if s.inFlight ≠ 0 || !s.mounted then s else { s with inFlight := s.inFlight + 1 }

/-- The change-event handler (Dashboard.tsx lines 164-177): clear the pending
debounce timer if any, then schedule a single new 1000 ms timer and store it in
the ref. -/
def onChangeEvent (s : DashState) : DashState :=
  { s with liveTimers := clearTimer s.timerRef s.liveTimers ++ [⟨s.nextId, 1000⟩],
           timerRef := some s.nextId,
           nextId := s.nextId + 1 }

/-- A scheduled timer fires: it leaves the live set and its callback runs
`if (mountedRef.current) fetchDashboardData()`. A timer id that was cleared
has no effect. -/
def onTimerFire (tid : Nat) (s : DashState) : DashState :=
  if s.liveTimers.any (fun t => t.id = tid) then
    let s1 := { s with liveTimers := s.liveTimers.filter (fun t => t.id ≠ tid) }
    if s1.mounted then fetchStart s1 else s1
  else s

/-- The `finally` block of a running fetch: `isFetchingRef.current = false`. -/
def onFetchDone (s : DashState) : DashState :=
  { s with inFlight := s.inFlight - 1 }

inductive DashEvent where
  | change
  | fire (tid : Nat)
  | fetchDone
deriving DecidableEq, Repr

def dashStep (s : DashState) : DashEvent → DashState
  | DashEvent.change => onChangeEvent s
  | DashEvent.fire tid => onTimerFire tid s
  | DashEvent.fetchDone => onFetchDone s

def dashRun (evs : List DashEvent) : DashState :=
  evs.foldl dashStep initialDashState

/-! ## Initial full reads and their requested ordering (C8)

`fetchOrders` (admin-login.tsx lines 256-264, likewise the src/src variant)
requests `.order('created_at', { ascending: false })`; `fetchMenuItems`
(menu-management.tsx lines 43-51) requests `.order('category', { ascending: true })`
— a single sort key, with no secondary key. The query result is embedded as a
stable sort of the table rows by exactly the requested key. -/

structure OrderRow where
  id : String
  customer_name : String
  total_amount : Int
  status : String
  created_at : Nat
deriving DecidableEq, Repr

structure MenuRow where
  id : String
  name : String
  category : String
deriving DecidableEq, Repr

/-- The ordering `fetchOrders` requests: creation time descending. -/
def ordersDesc (a b : OrderRow) : Prop :=
  b.created_at ≤ a.created_at

instance : DecidableRel ordersDesc :=
  fun a b => Nat.decLe b.created_at a.created_at

instance : IsTotal OrderRow ordersDesc :=
  ⟨fun a b => Nat.le_total b.created_at a.created_at⟩

instance : IsTrans OrderRow ordersDesc :=
  ⟨fun _ _ _ hab hbc => Nat.le_trans hbc hab⟩

/-- The ordering `fetchMenuItems` requests: category ascending, nothing else. -/
def menuCatLe (a b : MenuRow) : Prop :=
  a.category ≤ b.category

instance : DecidableRel menuCatLe :=
  fun a b => String.decidableLE a.category b.category

instance : IsTotal MenuRow menuCatLe :=
  ⟨fun a b => le_total a.category b.category⟩

instance : IsTrans MenuRow menuCatLe :=
  ⟨fun _ _ _ hab hbc => le_trans hab hbc⟩

/-- The ordering the spec's words demand of the menu read: category, then name. -/
def menuCatNameLe (a b : MenuRow) : Prop :=
  a.category < b.category ∨ (a.category = b.category ∧ a.name ≤ b.name)

/-- The initial orders read: table rows sorted by the requested key. -/
def fetchOrdersResult (table : List OrderRow) : List OrderRow :=
  List.insertionSort ordersDesc table

/-- The initial menu read: table rows sorted by the requested key. -/
def fetchMenuItemsResult (table : List MenuRow) : List MenuRow :=
  List.insertionSort menuCatLe table

/-- Two menu rows in the same category whose names are in reverse order. -/
def mMainB : MenuRow :=
  { id := "1", name := "b", category := "main" }

def mMainA : MenuRow :=
  { id := "2", name := "a", category := "main" }

/-! ## Theorems -/

/-- C2: the access-guard decision is a pure function of (profile, requiredRole);
it is false on a null profile for every required role, and true exactly when the
profile is non-null and its role is equal to or above the required role in the
ordering customer < admin < superadmin. -/
theorem hasPermission_characterization (p : Option UserProfile) (r : ReqRole) :
    hasPermission none r = false ∧
    (hasPermission p r = true ↔
      ∃ prof, p = some prof ∧ reqRank r ≤ roleRank prof.role) := by
  constructor
  · cases r <;> rfl
  · cases p with
    | none =>
      simp [hasPermission]
    | some prof =>
      cases r <;> cases hrole : prof.role <;>
        simp [hasPermission, reqRank, roleRank, hrole]

/-- C9: every profile row created through the public sign-up flow carries role
'user', whatever input the visitor supplies; in particular self sign-up never
directly produces an admin profile. -/
theorem signUp_role_is_user (userId email fullName : String) :
    (signUpProfileRow userId email fullName).role = "user" ∧
    (signUpProfileRow userId email fullName).role ≠ "admin" := by
  refine ⟨rfl, ?_⟩
  intro h
  simp [signUpProfileRow] at h

/-- C10: the role toggle maps 'admin' to 'user' and every other role to 'admin',
so its result is always in {admin, user}, and on {admin, user} it is an
involution. -/
theorem toggleRole_spec :
    toggleRole "admin" = "user" ∧
    (∀ r : String, r ≠ "admin" → toggleRole r = "admin") ∧
    (∀ r : String, toggleRole r = "admin" ∨ toggleRole r = "user") ∧
    (∀ r : String, r = "admin" ∨ r = "user" → toggleRole (toggleRole r) = r) := by
  refine ⟨rfl, ?_, ?_, ?_⟩
  · intro r hr
    simp [toggleRole, hr]
  · intro r
    by_cases hr : r = "admin"
    · right; simp [toggleRole, hr]
    · left; simp [toggleRole, hr]
  · rintro r (hr | hr) <;> subst hr <;> rfl

/-- Witness for C10 at concrete inputs: toggling twice from 'admin' restores
'admin'. -/
theorem toggleRole_spec_witness :
    toggleRole (toggleRole "admin") = "admin" :=
  toggleRole_spec.2.2.2 "admin" (Or.inl rfl)

/-- Invariant tying the guarded pattern's flag to its channel count:
the ref is set exactly while one channel is open. -/
def InvGuarded (sp : ChannelState × Bool) : Prop :=
  (sp.1.channelRef = true → sp.1.active = 1) ∧ (sp.1.channelRef = false → sp.1.active = 0)

lemma guardedStep_inv (sp : ChannelState × Bool) (e : LifeEvent)
    (h : InvGuarded sp) : InvGuarded (guardedStep sp e) := by
  obtain ⟨s, ph⟩ := sp
  obtain ⟨h1, h2⟩ := h
  cases e <;> cases ph <;>
    simp only [guardedStep, guardedMountEffect, guardedCleanup, InvGuarded] <;>
    cases hc : s.channelRef <;>
    simp_all

lemma guardedRun_inv (evs : List LifeEvent) :
    ∀ sp, InvGuarded sp → InvGuarded (evs.foldl guardedStep sp) := by
  induction evs with
  | nil => exact fun sp h => h
  | cons e t ih => exact fun sp h => ih _ (guardedStep_inv sp e h)

/-- Invariant for the unguarded pattern: the channel count tracks the mounted
phase exactly, because React pairs each effect run with its cleanup. -/
def InvOrders (ap : Nat × Bool) : Prop :=
  ap.1 = if ap.2 then 1 else 0

lemma ordersStep_inv (ap : Nat × Bool) (e : LifeEvent)
    (h : InvOrders ap) : InvOrders (ordersStep ap e) := by
  obtain ⟨a, ph⟩ := ap
  cases e <;> cases ph <;>
    simp_all [ordersStep, ordersMountEffect, ordersCleanup, InvOrders]

lemma ordersRun_inv (evs : List LifeEvent) :
    ∀ ap, InvOrders ap → InvOrders (evs.foldl ordersStep ap) := by
  induction evs with
  | nil => exact fun ap h => h
  | cons e t ih => exact fun ap h => ih _ (ordersStep_inv ap e h)

/-- Invariant of the dashboard refresh machinery: at most one fetch is past the
guard, and the pending debounce timers are either none or exactly the one the
ref points to, scheduled with a 1000 ms delay. -/
def InvDash (s : DashState) : Prop :=
  s.inFlight ≤ 1 ∧
  (s.liveTimers = [] ∨ ∃ i, s.timerRef = some i ∧ s.liveTimers = [⟨i, 1000⟩])

lemma fetchStart_liveTimers (s : DashState) : (fetchStart s).liveTimers = s.liveTimers := by
  unfold fetchStart
  split <;> rfl

lemma fetchStart_timerRef (s : DashState) : (fetchStart s).timerRef = s.timerRef := by
  unfold fetchStart
  split <;> rfl

lemma fetchStart_inFlight_le (s : DashState) (h : s.inFlight ≤ 1) :
    (fetchStart s).inFlight ≤ 1 := by
  unfold fetchStart
  split
  · exact h
  · next hc =>
    simp only [Bool.or_eq_true, Bool.not_eq_true', decide_eq_true_eq] at hc
    push_neg at hc
    simp only [hc.1]
    omega

lemma clearTimer_nil (tid : Option Nat) : clearTimer tid [] = [] := by
  cases tid <;> rfl

lemma dashStep_inv (s : DashState) (e : DashEvent) (h : InvDash s) :
    InvDash (dashStep s e) := by
  obtain ⟨h1, h2⟩ := h
  cases e with
  | change =>
    refine ⟨h1, Or.inr ⟨s.nextId, rfl, ?_⟩⟩
    rcases h2 with h2 | ⟨i, href, hts⟩
    · simp [dashStep, onChangeEvent, h2, clearTimer_nil]
    · simp [dashStep, onChangeEvent, href, hts, clearTimer]
  | fire tid =>
    by_cases hany : s.liveTimers.any (fun t => t.id = tid) = true
    · rcases h2 with h2 | ⟨i, _, hts⟩
      · rw [h2] at hany
        simp at hany
      · have htid : tid = i := by
          rw [hts] at hany
          simpa [eq_comm] using hany
        subst htid
        have hfil : s.liveTimers.filter (fun t => t.id ≠ tid) = [] := by
          rw [hts]
          simp
        simp only [dashStep, onTimerFire, hany, if_true]
        split
        · refine ⟨fetchStart_inFlight_le _ h1, Or.inl ?_⟩
          rw [fetchStart_liveTimers]
          exact hfil
        · exact ⟨h1, Or.inl hfil⟩
    · simp only [dashStep, onTimerFire, hany]
      exact ⟨h1, h2⟩
  | fetchDone =>
    refine ⟨?_, h2⟩
    simp only [dashStep, onFetchDone]
    omega

lemma dashRun_inv (evs : List DashEvent) :
    ∀ s, InvDash s → InvDash (evs.foldl dashStep s) := by
  induction evs with
  | nil => exact fun s h => h
  | cons e t ih => exact fun s h => ih _ (dashStep_inv s e h)

/-- C3 counterexample: the admin-login OrderManagement subscription effect has
no instance-scoped already-subscribed flag — running its effect body twice
opens two channels, while the flag-guarded Dashboard effect stays at one. -/
theorem channelFlag_counterexample :
    ordersMountEffect (ordersMountEffect 0) = 2 ∧
    (guardedMountEffect (guardedMountEffect initialChannelState)).active = 1 := by
  exact ⟨rfl, rfl⟩

/-- C3 amended: under React's paired effect/cleanup lifecycle every screen
instance holds at most one active channel at every point of any
mount/unmount/remount history, and the flag-guarded screens (Dashboard, the
src/src MenuManagement and OrderManagement) check the instance-scoped
`channelRef` flag before creating a channel, making their mount effect
idempotent; the admin-login OrderManagement creates its channel
unconditionally on each effect run, with no such flag. -/
theorem channelLifecycle_spec (evs : List LifeEvent) :
    (guardedRun evs).1.active ≤ 1 ∧
    (ordersRun evs).1 ≤ 1 ∧
    (∀ s : ChannelState, guardedMountEffect (guardedMountEffect s) = guardedMountEffect s) := by
  refine ⟨?_, ?_, ?_⟩
  · have h := guardedRun_inv evs (initialChannelState, false) ⟨by simp [initialChannelState], fun _ => rfl⟩
    obtain ⟨h1, h2⟩ := h
    cases hc : (guardedRun evs).1.channelRef
    · rw [guardedRun] at hc ⊢
      rw [h2 hc]
      omega
    · rw [guardedRun] at hc ⊢
      rw [h1 hc]
  · have h := ordersRun_inv evs (0, false) rfl
    rw [InvOrders] at h
    rw [ordersRun, h]
    split <;> omega
  · intro s
    unfold guardedMountEffect
    cases hc : s.channelRef <;> simp [hc]

/-- C6: along every event history (change-event bursts, debounce-timer firings,
fetch completions) at most one full refresh is in flight at a time, at most one
trailing debounce timer is pending (triggers are coalesced, never queued
individually), and every pending timer is scheduled with the 1-second debounce
delay. -/
theorem dashboardRefresh_serialized (evs : List DashEvent) :
    (dashRun evs).inFlight ≤ 1 ∧
    (dashRun evs).liveTimers.length ≤ 1 ∧
    (∀ t ∈ (dashRun evs).liveTimers, t.delay = 1000) := by
  have h := dashRun_inv evs initialDashState ⟨Nat.zero_le 1, Or.inl rfl⟩
  obtain ⟨h1, h2⟩ := h
  refine ⟨h1, ?_, ?_⟩
  · rcases h2 with h2 | ⟨i, _, hts⟩
    · rw [dashRun, h2]
      exact Nat.zero_le 1
    · rw [dashRun, hts]
      exact Nat.le_refl 1
  · intro t ht
    rcases h2 with h2 | ⟨i, _, hts⟩
    · rw [dashRun, h2] at ht
      cases ht
    · rw [dashRun, hts] at ht
      simp only [List.mem_singleton] at ht
      rw [ht]

/-- C1 counterexample: after a successful initial resolution to a non-null
profile, a session-change event (e.g. a token refresh) whose profile fetch
fails leaves the resolved profile at the stale non-null value — it is not
resolved to null as the claim states. -/
theorem authFetchFailure_counterexample :
    (onAuthStateChange (some "u1") FetchResult.failure
      (getInitialSession (some "u1") (FetchResult.success demoProfile)
        initialAuthState)).userProfile = some demoProfile := by
  rfl

/-- C1 amended: on initial load a failed or empty profile fetch leaves the
resolved profile at its initial null; a session-change event with no session
resolves the profile to null; but a session-change event with an active session
whose profile fetch fails leaves the previously resolved profile unchanged, so
null is guaranteed there only when no profile had been resolved before. -/
theorem authFetchFailure_resolution (sess : String) (res : FetchResult) (s : AuthState) :
    (getInitialSession (some sess) FetchResult.failure initialAuthState).userProfile = none ∧
    (getInitialSession none res initialAuthState).userProfile = none ∧
    (onAuthStateChange none res s).userProfile = none ∧
    (onAuthStateChange (some sess) FetchResult.failure s).userProfile = s.userProfile := by
  refine ⟨rfl, rfl, rfl, rfl⟩

/-- The update handler leaves a state untouched when no row carries the
updated id. -/
lemma applyMenuUpdate_not_mem (upd : MenuItem) (l : List MenuItem)
    (h : ∀ it ∈ l, it.id ≠ upd.id) : applyMenuUpdate upd l = l := by
  induction l with
  | nil => rfl
  | cons a t ih =>
    simp only [applyMenuUpdate, List.map_cons]
    rw [if_neg (h a (List.mem_cons_self a t))]
    have := ih (fun it hit => h it (List.mem_cons_of_mem a hit))
    simpa [applyMenuUpdate] using this

/-- C4 counterexample: an insert event for an id already present in local state
still prepends — afterwards two rows share the id, refuting "prepends the new
row only if no row with the same id is already present" and its no-duplicates
consequence. -/
theorem menuInsert_counterexample :
    applyMenuInsert itemB [itemA] = [itemB, itemA] ∧
    (applyMenuInsert itemB [itemA]).countP (fun it => it.id == "1") = 2 := by
  constructor
  · rfl
  · rfl

/-- C4 amended: the insert handler prepends unconditionally (duplicates arise
when the id is already present); the update handler replaces every row with the
matching id in place, preserving length and positions; the delete handler
removes the rows with the matching id; and an insert followed by an update for
the same id, starting from a state not containing that id, yields exactly one
row with that id, which is the update's row. -/
theorem menuHandlers_spec (row upd : MenuItem) (prev : List MenuItem)
    (hid : upd.id = row.id) (hfresh : ∀ it ∈ prev, it.id ≠ row.id) :
    applyMenuInsert row prev = row :: prev ∧
    (applyMenuUpdate upd prev).length = prev.length ∧
    (∀ i : Nat, ∀ hi : i < prev.length,
      (applyMenuUpdate upd prev).get ⟨i, by simpa [applyMenuUpdate] using hi⟩ =
        if (prev.get ⟨i, hi⟩).id = upd.id then upd else prev.get ⟨i, hi⟩) ∧
    (∀ oldId, ∀ it ∈ applyMenuDelete oldId prev, it.id ≠ oldId) ∧
    applyMenuUpdate upd (applyMenuInsert row prev) = upd :: prev ∧
    (applyMenuUpdate upd (applyMenuInsert row prev)).countP (fun it => it.id == upd.id) = 1 := by
  have hfresh' : ∀ it ∈ prev, it.id ≠ upd.id := fun it hit => hid ▸ hfresh it hit
  have hupdate : applyMenuUpdate upd (applyMenuInsert row prev) = upd :: prev := by
    simp only [applyMenuInsert, applyMenuUpdate, List.map_cons]
    rw [if_pos (hid ▸ rfl)]
    have := applyMenuUpdate_not_mem upd prev hfresh'
    simpa [applyMenuUpdate] using this
  refine ⟨rfl, List.length_map _ _, ?_, ?_, hupdate, ?_⟩
  · intro i hi
    simp [applyMenuUpdate, List.getElem_map]
  · intro oldId it hit
    have := List.of_mem_filter hit
    simpa using this
  · rw [hupdate, List.countP_cons]
    have hzero : prev.countP (fun it => it.id == upd.id) = 0 := by
      rw [List.countP_eq_zero]
      intro it hit
      simpa using hfresh' it hit
    simp [hzero]

/-- Witness for C4 at concrete inputs: inserting a fresh row and then updating
it yields exactly the updated row. -/
theorem menuHandlers_spec_witness :
    applyMenuUpdate itemB (applyMenuInsert itemA []) = [itemB] :=
  (menuHandlers_spec itemA itemB [] rfl (by intro it hit; cases hit)).2.2.2.2.1

/-- C5: applying a delete event for an id not present in local state is the
identity — duplicate or out-of-order deletes are idempotent no-ops. -/
theorem menuDelete_no_op (oldId : String) (prev : List MenuItem)
    (h : ∀ it ∈ prev, it.id ≠ oldId) : applyMenuDelete oldId prev = prev := by
  apply List.filter_eq_self.mpr
  intro it hit
  simpa using h it hit

/-- Witness for C5 at a concrete input: deleting id "2" from a state holding
only id "1" changes nothing. -/
theorem menuDelete_no_op_witness :
    applyMenuDelete "2" [itemA] = [itemA] :=
  menuDelete_no_op "2" [itemA] (by
    intro it hit
    simp only [List.mem_singleton] at hit
    subst hit
    decide)

/-- C7 counterexample: in the profiles variant the admin status update changes
only the status column; at a concrete unread pending order set to 'completed',
the order is not marked read, refuting the mark-as-read side effect claimed of
the cited operation. -/
theorem setStatus_counterexample :
    (updateOrderStatusApp "completed" { id := "o1", status := "pending", is_read := false }).status
      = "completed" ∧
    (updateOrderStatusApp "completed" { id := "o1", status := "pending", is_read := false }).is_read
      = false := by
  exact ⟨rfl, rfl⟩

/-- C8 counterexample: on a concrete menu table holding two same-category rows
with names in reverse order, the initial menu read returns them unchanged —
sorted by the single requested key (category) but not by category then name,
refuting the claimed secondary name ordering. -/
theorem menuFetch_counterexample :
    fetchMenuItemsResult [mMainB, mMainA] = [mMainB, mMainA] ∧
    ¬ List.Sorted menuCatNameLe [mMainB, mMainA] := by
  have heval : fetchMenuItemsResult [mMainB, mMainA] = [mMainB, mMainA] := by
    show List.orderedInsert menuCatLe mMainB (List.orderedInsert menuCatLe mMainA []) =
      [mMainB, mMainA]
    simp only [List.orderedInsert]
    have hc : menuCatLe mMainB mMainA := le_refl mMainB.category
    rw [if_pos hc]
  refine ⟨heval, ?_⟩
  intro hsorted
  have h := List.rel_of_sorted_cons hsorted mMainA (List.mem_singleton.mpr rfl)
  rcases h with h | ⟨_, h⟩
  · exact absurd h (lt_irrefl _)
  · rw [String.le_iff_toList_le] at h
    revert h
    decide

/-- C8 amended: each screen's initial full read returns a permutation of the
resource table in the requested order — orders sorted by creation time
descending, menu items sorted by category ascending only (the query carries no
secondary name key). -/
theorem initialFetch_ordering (orders : List OrderRow) (menu : List MenuRow) :
    List.Sorted ordersDesc (fetchOrdersResult orders) ∧
    List.Perm (fetchOrdersResult orders) orders ∧
    List.Sorted menuCatLe (fetchMenuItemsResult menu) ∧
    List.Perm (fetchMenuItemsResult menu) menu :=
  ⟨List.sorted_insertionSort ordersDesc orders, List.perm_insertionSort ordersDesc orders,
    List.sorted_insertionSort menuCatLe menu, List.perm_insertionSort menuCatLe menu⟩

/-- C7 amended: for every order and every status value, both variants' admin
status updates set the status with no transition-legality validation (any
status is reachable from any other in one call); the users variant additionally
marks the order read, while the cited profiles variant leaves the read state
unchanged (its schema has no read flag). -/
theorem setStatus_spec (o : OrderRec) (s : String) :
    (updateOrderStatusApp s o).status = s ∧
    (updateOrderStatusPanel s o).status = s ∧
    (updateOrderStatusPanel s o).is_read = true ∧
    (updateOrderStatusApp s o).is_read = o.is_read ∧
    (updateOrderStatusApp s o).id = o.id ∧
    (updateOrderStatusPanel s o).id = o.id := by
  exact ⟨rfl, rfl, rfl, rfl, rfl, rfl⟩

end CloudAdmin
